import Mathlib

set_option autoImplicit false

/-!
Verification of the RightTyper sampling-and-inference engine.

This file gives a shallow embedding of the two source files
`righttyper/righttyper_types.py` and `righttyper/righttyper.py`:
the data model (FuncInfo, TypeInfo, ArgInfo, FuncAnnotation), the
observation store (Observations with its record_function, record_start,
record_yield, record_return and collect_annotations operations), the
call-correlation handlers (enter_handler, process_yield_or_return) and
the adaptive sampling controller (restart_sampling).

Python dictionaries are embedded as association lists (unique keys hold
along the pipeline; theorems that need key uniqueness state it), Python
sets as duplicate-free lists (insertion adds at the end when the element
is absent, mirroring deduplication), and live runtime type objects as an
opaque identity (Option Nat).

The modules `righttyper.typeinfo` (union_typeset, generalize) and the
class `Sample` are imported by `righttyper.py` but are not part of the
two source files; they are modelled from the specification, as marked in
their doc comments.
-/

namespace RightTyper

/-! ### Association list helpers (embedding of Python dict operations) -/

/-- Lookup of a key in an association list, first match wins (dict access). -/
def alookup {α β : Type} [DecidableEq α] : List (α × β) → α → Option β
  | [], _ => none
  | (k, v) :: rest, a => if k = a then some v else alookup rest a

/-- Insert-or-replace of a key (dict assignment). -/
def aupsert {α β : Type} [DecidableEq α] : List (α × β) → α → β → List (α × β)
  | [], a, b => [(a, b)]
  | (k, v) :: rest, a, b => if k = a then (a, b) :: rest else (k, v) :: aupsert rest a b

/-- Removal of a key (del on a dict); removes the first matching entry. -/
def aerase {α β : Type} [DecidableEq α] : List (α × β) → α → List (α × β)
  | [], _ => []
  | (k, v) :: rest, a => if k = a then rest else (k, v) :: aerase rest a

/-- Set insertion (set.add): append the element when it is absent. -/
def setInsert {α : Type} [DecidableEq α] (x : α) (xs : List α) : List α :=
  if x ∈ xs then xs else xs ++ [x]

/-! ### Data model, from righttyper/righttyper_types.py -/

/-- FuncInfo (righttyper_types.py lines 17-20): frozen dataclass with exactly
the two fields file_name and func_name; equality and hashing are derived
from the fields. -/
structure FuncInfo where
  file_name : String
  func_name : String
deriving DecidableEq, Repr, Hashable

mutual
/-- TypeInfo (righttyper_types.py lines 33-41): frozen dataclass with fields
module, name, args (a tuple whose elements are TypeInfo values or literal
strings), func, is_bound and type_obj. The live runtime type object held in
type_obj is embedded as an opaque identity (Option Nat), since Python
compares type objects by identity. Equality of the frozen dataclass
compares all six fields; the derived structural equality of this inductive
matches that. -/
inductive TypeInfo : Type where
  | mk (module : String) (name : String) (args : TypeArgs)
       (func : Option FuncInfo) (is_bound : Bool) (type_obj : Option Nat) : TypeInfo

/-- Elements of the TypeInfo args tuple: TypeInfo values or literal strings
(righttyper_types.py line 37). -/
inductive TypeArgs : Type where
  | nil : TypeArgs
  | consT (t : TypeInfo) (rest : TypeArgs) : TypeArgs
  | consS (s : String) (rest : TypeArgs) : TypeArgs
end

deriving instance DecidableEq for TypeInfo
deriving instance Repr for TypeInfo
deriving instance Hashable for TypeInfo

def TypeInfo.module : TypeInfo → String
  | .mk m _ _ _ _ _ => m

def TypeInfo.name : TypeInfo → String
  | .mk _ n _ _ _ _ => n

def TypeInfo.args : TypeInfo → TypeArgs
  | .mk _ _ a _ _ _ => a

def TypeInfo.func : TypeInfo → Option FuncInfo
  | .mk _ _ _ f _ _ => f

def TypeInfo.is_bound : TypeInfo → Bool
  | .mk _ _ _ _ b _ => b

def TypeInfo.type_obj : TypeInfo → Option Nat
  | .mk _ _ _ _ _ o => o

/-- Hash of a TypeInfo value; the frozen dataclass derives its hash from the
field values, so structurally equal values hash equal. -/
def tyHash (t : TypeInfo) : UInt64 := hash t

/-- Conversion of a list of TypeInfo values into an args tuple. -/
def TypeArgs.ofList : List TypeInfo → TypeArgs
  | [] => .nil
  | t :: r => .consT t (TypeArgs.ofList r)

mutual
/-- String rendering of a TypeInfo (righttyper_types.py lines 43-52,
TypeInfo.__str__): optional module prefix followed by the name, with the
args tuple bracketed and comma separated when non-empty. -/
def tyStr : TypeInfo → String
  | .mk m n args _ _ _ =>
    let pre := if m = "" then "" else m ++ "."
    match args with
    | .nil => pre ++ n
    | a => pre ++ n ++ "[" ++ tyArgsStr a ++ "]"

/-- Comma-separated rendering of the args tuple; literal strings render as
themselves. -/
def tyArgsStr : TypeArgs → String
  | .nil => ""
  | .consT t .nil => tyStr t
  | .consS s .nil => s
  | .consT t r => tyStr t ++ ", " ++ tyArgsStr r
  | .consS s r => s ++ ", " ++ tyArgsStr r
end

mutual
/-- RemoveTypeObjTransformer (righttyper.py lines 186-192 together with
TypeInfo.Transformer, righttyper_types.py lines 61-70): replaces a present
type_obj by None and visits the args tuple recursively, leaving module,
name, func and is_bound untouched. -/
def stripT : TypeInfo → TypeInfo
  | .mk m n args f b _ => .mk m n (stripArgs args) f b none

/-- Recursive strip over the args tuple; literal strings are not visited. -/
def stripArgs : TypeArgs → TypeArgs
  | .nil => .nil
  | .consT t r => .consT (stripT t) (stripArgs r)
  | .consS s r => .consS s (stripArgs r)
end

mutual
/-- Decides whether a TypeInfo and everything reachable through its args
tuple carries no runtime type handle. -/
def noTypeObjT : TypeInfo → Bool
  | .mk _ _ args _ _ o => o.isNone && noTypeObjArgs args

/-- Decides noTypeObjT across an args tuple. -/
def noTypeObjArgs : TypeArgs → Bool
  | .nil => true
  | .consT t r => noTypeObjT t && noTypeObjArgs r
  | .consS _ r => noTypeObjArgs r
end

/-- Descriptor of the NoneType value, used where the source leaves a return
type unset. -/
def noneTypeInfo : TypeInfo := .mk "builtins" "NoneType" .nil none false none

/-- ArgInfo (righttyper_types.py lines 76-79): dataclass with the two fields
arg_name and type_set. The second field is declared as TypeInfoSet, but
record_function (righttyper.py lines 111-115) stores there the type of the
default value, or None when there is none; the embedding types the field by
that stored value. Note the dataclass declares no field named default. -/
structure ArgInfo where
  arg_name : String
  type_set : Option TypeInfo
deriving DecidableEq, Repr

/-- Attribute lookup on an ArgInfo instance against the fields the dataclass
declares; none models an AttributeError. -/
def argInfoGetattr (a : ArgInfo) (attr : String) : Option (String ⊕ Option TypeInfo) :=
  if attr = "arg_name" then some (.inl a.arg_name)
  else if attr = "type_set" then some (.inr a.type_set)
  else none

/-- Field name read from each ArgInfo by mk_annotation (righttyper.py line
201, arg.default). -/
def mkAnnotDefaultAttr : String := "default"

/-- Modelled from the spec: righttyper.typeinfo.union_typeset is imported by
righttyper.py (lines 52-55) but its module is not under src/. Following
section 4.4 step 2 of the specification, identical descriptors collapse to
one and differing descriptors combine into a union-of-types description,
rendered here as types.UnionType with the distinct members as args. -/
def union_typeset (ts : List TypeInfo) : TypeInfo :=
  match ts.dedup with
  | [t] => t
  | d => .mk "types" "UnionType" (TypeArgs.ofList d) none false none

/-- Modelled from the spec: righttyper.typeinfo.generalize is imported by
righttyper.py (lines 52-55) but its module is not under src/. Following
section 4.4 steps 1, 2 and 4 of the specification, the finalized sample
tuples are treated as rows of a table and each column is merged with
union_typeset; when the rows do not agree on arity the function is not
generalizable and None is returned (righttyper.py line 179 tests the result
for None). The supertype preference of step 2 is explicitly only a
preference and is not modelled. -/
def generalize (rows : List (List TypeInfo)) : Option (List TypeInfo) :=
  match rows with
  | [] => none
  | r :: rs =>
    if rs.all (fun row => row.length = r.length) then
      some ((List.range r.length).map
        (fun i => union_typeset ((r :: rs).map (fun row => row.getD i noneTypeInfo))))
    else none

/-- Modelled from the spec: the Sample class is imported from
righttyper_types (righttyper.py line 50) but is not defined in the source
file under src/. Following section 3 of the specification, a Sample holds
the ordered argument descriptors, an optional receiver descriptor, the
growing set of yield descriptors and the return descriptor, set at most
once. -/
structure Sample where
  args : List TypeInfo
  self_type : Option TypeInfo := none
  yields : List TypeInfo := []
  returns : Option TypeInfo := none
deriving DecidableEq, Repr

/-- Modelled from the spec: finalization of a Sample (section 3). The result
is the ordered tuple of argument descriptors followed by a summary: the
return type or, when any yields were recorded, a generator description
whose first arg is the union of the yield types and which subsumes the
return type. The receiver descriptor, when present, stands for the first
argument. -/
def Sample.process (s : Sample) : List TypeInfo :=
  let args' : List TypeInfo :=
    match s.self_type, s.args with
    | some st, _ :: rest => st :: rest
    | _, a => a
  let ret := s.returns.getD noneTypeInfo
  let summary : TypeInfo :=
    if s.yields = [] then ret
    else .mk "typing" "Generator"
      (.consT (union_typeset s.yields) (.consT noneTypeInfo (.consT ret .nil)))
      none false none
  args' ++ [summary]

/-- FuncAnnotation (righttyper_types.py lines 23-26). The dataclass declares
Typename strings, but collect_annotations (righttyper.py lines 194-208)
stores TypeInfo values into both fields at runtime (dataclasses perform no
runtime type check); the embedding follows the runtime values. -/
structure FuncAnnot where
  args : List (String × TypeInfo)
  retval : TypeInfo
deriving DecidableEq, Repr

/-! ### Observation store, righttyper.py lines 91-231 -/

/-- Observations (righttyper.py lines 91-100): visited functions with their
argument names and default types, pending samples keyed by (function, frame
id), and completed sample tuple sets keyed by function (a defaultdict of
sets; an absent key reads as the empty set). -/
structure Observations where
  functions_visited : List (FuncInfo × List ArgInfo) := []
  pending_samples : List ((FuncInfo × Nat) × Sample) := []
  samples : List (FuncInfo × List (List TypeInfo)) := []
deriving DecidableEq, Repr

/-- Completed sample rows of one function in a samples map (defaultdict
read: empty when absent). -/
def rowsOfS (S : List (FuncInfo × List (List TypeInfo))) (f : FuncInfo) :
    List (List TypeInfo) :=
  (alookup S f).getD []

/-- Completed sample rows of one function (defaultdict read: empty when
absent). -/
def Observations.rowsOf (o : Observations) (f : FuncInfo) : List (List TypeInfo) :=
  rowsOfS o.samples f

/-- Insertion of a finalized row into the completed set of a function
(self.samples[func].add(...) on the defaultdict of sets). -/
def samplesInsert (S : List (FuncInfo × List (List TypeInfo))) (f : FuncInfo)
    (row : List TypeInfo) : List (FuncInfo × List (List TypeInfo)) :=
  match alookup S f with
  | some rows => aupsert S f (setInsert row rows)
  | none => S ++ [(f, [row])]

/-- record_function (righttyper.py lines 103-115): write-once record of the
argument names of a function and the types of their default values. -/
def Observations.record_function (o : Observations) (func : FuncInfo)
    (arg_names : List String) (get_default_type : String → Option TypeInfo) : Observations :=
  if (alookup o.functions_visited func).isSome then o
  else
    { o with
        functions_visited := o.functions_visited ++
          [(func, arg_names.map (fun n => ⟨n, get_default_type n⟩))] }

/-- record_start (righttyper.py lines 118-128): opens a pending Sample keyed
by (function, frame id). -/
def Observations.record_start (o : Observations) (func : FuncInfo) (frame_id : Nat)
    (arg_types : List TypeInfo) (self_type : Option TypeInfo) : Observations :=
  { o with
      pending_samples := aupsert o.pending_samples (func, frame_id)
        ({ args := arg_types, self_type := self_type } : Sample) }

/-- record_yield (righttyper.py lines 131-139): when the pending Sample
exists, add the yield type to its yield set and keep it pending, returning
True; otherwise change nothing and return False. -/
def Observations.record_yield (o : Observations) (func : FuncInfo) (frame_id : Nat)
    (yield_type : TypeInfo) : Observations × Bool :=
  match alookup o.pending_samples (func, frame_id) with
  | some s =>
      ({ o with
          pending_samples := aupsert o.pending_samples (func, frame_id)
            ({ s with yields := setInsert yield_type s.yields } : Sample) }, true)
  | none => (o, false)

/-- record_return (righttyper.py lines 142-152): when the pending Sample
exists, set its return type, add the finalized tuple to the completed set of
the function, delete the pending entry and return True; otherwise change
nothing and return False. -/
def Observations.record_return (o : Observations) (func : FuncInfo) (frame_id : Nat)
    (return_type : TypeInfo) : Observations × Bool :=
  match alookup o.pending_samples (func, frame_id) with
  | some s =>
      ({ o with
          samples := samplesInsert o.samples func
            (Sample.process { s with returns := some return_type }),
          pending_samples := aerase o.pending_samples (func, frame_id) }, true)
  | none => (o, false)

/-- Loop body fold of the first loop of collect_annotations (righttyper.py
lines 169-173): every pending sample that recorded at least one yield is
finalized into the completed set of its function; pending samples with no
yields contribute nothing. -/
def foldPendingAux : List ((FuncInfo × Nat) × Sample) →
    List (FuncInfo × List (List TypeInfo)) → List (FuncInfo × List (List TypeInfo))
  | [], S => S
  | (k, s) :: rest, S =>
      foldPendingAux rest (if s.yields = [] then S else samplesInsert S k.1 s.process)

/-- First stage of collect_annotations (righttyper.py lines 169-173) as a
store transformation. -/
def Observations.foldPending (o : Observations) : Observations :=
  { o with samples := foldPendingAux o.pending_samples o.samples }

/-- mk_annotation (righttyper.py lines 175-208), intended-behavior model.
The source reads arg.default from each ArgInfo, an attribute the ArgInfo
dataclass does not declare (its second field is named type_set, and it is
there that record_function stored the default type); the runtime effect, an
AttributeError, is modelled faithfully by mk_annot_src below and analyzed
under claims C1 and C9, while this definition reads the stored second
field, which is what the surrounding code intends. A missing
functions_visited entry is modelled as none, where the source would raise
KeyError; along the pipeline the entry always exists, since record_start is
always preceded by record_function. The set passed to union_typeset holds
the generalized column type and, when present, the default type. -/
def Observations.mk_annot (o : Observations) (t : FuncInfo) : Option FuncAnnot :=
  match alookup o.functions_visited t with
  | none => none
  | some argInfos =>
    match generalize (o.rowsOf t) with
    | none => none
    | some sig =>
      some {
        args := argInfos.enum.map (fun p =>
          (p.2.arg_name,
           stripT (union_typeset
             (sig.getD p.1 noneTypeInfo ::
               (match p.2.type_set with | some d => [d] | none => []))))),
        retval := stripT (sig.getLast?.getD noneTypeInfo) }

/-- Rendering of the Callable substitution built by the transformer T
(righttyper.py lines 216-221): a literal-text first arg listing the
argument types, with the receiver dropped for bound callables, and the
return type as second arg. -/
def callableOf (ann : FuncAnnot) (b : Bool) : TypeInfo :=
  .mk "typing" "Callable"
    (.consS ("[" ++ String.intercalate ", "
        ((ann.args.drop (if b then 1 else 0)).map (fun a => tyStr a.2)) ++ "]")
      (.consT ann.retval .nil))
    none false none

mutual
/-- Transformer T (righttyper.py lines 210-223): a TypeInfo that references
a tracked callable (func set, args empty, function present in the samples
keys) is replaced by a Callable description built from that function
annotation; otherwise the args tuple is visited recursively. The store o is
the snapshot the annotation lookups read; the source mutates the sample
sets in place while iterating, and the snapshot fixes one schedule of that
iteration. -/
def visitT (o : Observations) : TypeInfo → TypeInfo
  | .mk m n args f b ob =>
      match f, args with
      | some func, .nil =>
          if (alookup o.samples func).isSome then
            match o.mk_annot func with
            | some ann => callableOf ann b
            | none => .mk m n .nil (some func) b ob
          else .mk m n .nil (some func) b ob
      | _, _ => .mk m n (visitTArgs o args) f b ob

/-- Recursive visit of the transformer T across an args tuple. -/
def visitTArgs (o : Observations) : TypeArgs → TypeArgs
  | .nil => .nil
  | .consT t r => .consT (visitT o t) (visitTArgs o r)
  | .consS s r => .consS s (visitTArgs o r)
end

/-- Second stage of collect_annotations: _transform_types with the
transformer T (righttyper.py lines 155-163 and 225). Each sample set is
replaced by its image under the transformer; the image is deduplicated, as
set removal and addition leave exactly the image set. -/
def Observations.transformSamples (o : Observations) : Observations :=
  { o with
      samples := o.samples.map
        (fun p => (p.1, (p.2.map (List.map (visitT o))).dedup)) }

/-- collect_annotations (righttyper.py lines 166-231), intended-behavior
model: fold still-pending generator samples into the completed sets,
rewrite callable references in the stored samples, then produce one
annotation per function key, skipping the functions for which
mk_annotation returns None. The faithful raising run is
collect_annotations_src below. -/
def Observations.collect_annotations (o : Observations) : List (FuncInfo × FuncAnnot) :=
  let o1 := o.foldPending
  let o2 := o1.transformSamples
  o2.samples.filterMap (fun p => (o2.mk_annot p.1).map (fun ann => (p.1, ann)))

/-- mk_annotation exactly as written (righttyper.py lines 175-208): a
missing functions_visited entry raises KeyError; a failed generalization is
reported and skipped (ok none); otherwise the args comprehension evaluates
arg.default for every ArgInfo — an attribute ArgInfo does not declare — so
any function with at least one argument raises AttributeError, and only a
zero-argument function yields its annotation. -/
def Observations.mk_annot_src (o : Observations) (t : FuncInfo) :
    Except String (Option FuncAnnot) :=
  match alookup o.functions_visited t with
  | none => .error "KeyError"
  | some argInfos =>
    match generalize (o.rowsOf t) with
    | none => .ok none
    | some sig =>
      match argInfos with
      | [] => .ok (some { args := [], retval := stripT (sig.getLast?.getD noneTypeInfo) })
      | _ :: _ => .error "AttributeError"

/-- Final comprehension of collect_annotations with errors propagated: the
dict comprehension evaluates mk_annotation per function key and an
exception escaping it aborts the whole call, so nothing is returned. -/
def collectAnnSrcAux (o2 : Observations) :
    List (FuncInfo × List (List TypeInfo)) → Except String (List (FuncInfo × FuncAnnot))
  | [] => .ok []
  | p :: rest =>
    match o2.mk_annot_src p.1 with
    | .error e => .error e
    | .ok none => collectAnnSrcAux o2 rest
    | .ok (some ann) => (collectAnnSrcAux o2 rest).map (fun l => (p.1, ann) :: l)

/-- collect_annotations exactly as written, with the AttributeError of
mk_annotation propagated out of the final comprehension. The transformer
stage is exact for stores whose samples reference no tracked callable (the
transformer then calls no mk_annotation); the failing inputs of claim C9
are such stores. -/
def Observations.collect_annotations_src (o : Observations) :
    Except String (List (FuncInfo × FuncAnnot)) :=
  let o1 := o.foldPending
  let o2 := o1.transformSamples
  collectAnnSrcAux o2 o2.samples

/-! ### Call correlation handlers, righttyper.py lines 237-382 -/

/-- Code object data the handlers read. -/
structure CodeObj where
  co_filename : String
  co_firstlineno : Nat
  co_qualname : String
deriving DecidableEq, Repr

/-- Stack frame: its executing code object and its identity (id(frame)). -/
structure Frame where
  f_code : CodeObj
  f_id : Nat
deriving DecidableEq, Repr

/-- Outcome of a monitoring handler: sys.monitoring.DISABLE, None (keep the
event enabled), or an uncaught exception. -/
inductive HandlerOutcome : Type where
  | disable : HandlerOutcome
  | keep : HandlerOutcome
  | exc (msg : String) : HandlerOutcome
deriving DecidableEq, Repr

/-- Positional argument of a Python call, as passed to the FuncInfo
constructor by the handlers. -/
inductive PyArg : Type where
  | s (v : String) : PyArg
  | n (v : Nat) : PyArg
deriving DecidableEq, Repr

def PyArg.render : PyArg → String
  | .s v => v
  | .n v => toString v

/-- Positional arguments of the FuncInfo construction performed by
enter_handler (righttyper.py lines 258-262) and process_yield_or_return
(lines 365-369): co_filename, co_firstlineno and co_qualname. -/
def funcInfoCallArgs (c : CodeObj) : List PyArg :=
  [.s c.co_filename, .n c.co_firstlineno, .s c.co_qualname]

/-- Generated initializer of the frozen FuncInfo dataclass: it accepts
exactly the two declared fields (dataclasses perform no runtime type
check on the values); any other arity raises TypeError, modelled as none. -/
def funcInfoConstruct : List PyArg → Option FuncInfo
  | [a, b] => some ⟨a.render, b.render⟩
  | _ => none

/-- Function identity the handlers intend to build: the two components
FuncInfo declares, read from the code object. The source instead performs
the three-argument call modelled by funcInfoCallArgs, which the initializer
rejects (claim C2); the handlers below model that raising call faithfully,
and this definition only states the intended two-component construction. -/
def funcInfoOfCode (c : CodeObj) : FuncInfo :=
  ⟨c.co_filename, c.co_qualname⟩

/-- process_function_arguments (righttyper.py lines 439-516) at the store
level: record the argument names and default types once, then open the
pending Sample. The runtime classification of argument values, the default
lookup through inspect.signature and the receiver detection live in
excluded or missing modules and enter the model as inputs. -/
def process_function_arguments (o : Observations) (t : FuncInfo) (frame_id : Nat)
    (arg_names : List String) (get_default_type : String → Option TypeInfo)
    (arg_types : List TypeInfo) (self_type : Option TypeInfo) : Observations :=
  (o.record_function t arg_names get_default_type).record_start t frame_id arg_types self_type

/-- enter_handler (righttyper.py lines 237-268). The stack list starts at
the frame of the handler itself (inspect.currentframe()), so the walk needs
the handler frame and one caller frame; with fewer frames the body is
skipped. When the walked-to frame runs a different code object the assert
on line 256 raises AssertionError. On the matched path the handler then
performs the FuncInfo construction of lines 258-262 with the three
positional arguments of funcInfoCallArgs; the two-field initializer rejects
that call (claim C2), so the construction raises TypeError before
process_function_arguments can run — the some branch models what the
surrounding code does with a successfully built identity. The returned
value is DISABLE when sampling is on, None otherwise, on every non-raising
path. -/
def enter_handler (o : Observations) (c : CodeObj) (stack : List Frame)
    (skip sampling : Bool) (arg_names : List String)
    (get_default_type : String → Option TypeInfo) (arg_types : List TypeInfo)
    (self_type : Option TypeInfo) : Observations × HandlerOutcome :=
  if skip then (o, .disable)
  else
    match stack with
    | _cur :: fr :: _ =>
        if fr.f_code = c then
          match funcInfoConstruct (funcInfoCallArgs c) with
          | none => (o, .exc "TypeError")
          | some t =>
              (process_function_arguments o t fr.f_id arg_names get_default_type
                arg_types self_type,
               if sampling then .disable else .keep)
        else (o, .exc "AssertionError")
    | _ => (o, if sampling then .disable else .keep)

/-- process_yield_or_return (righttyper.py lines 324-382). The stack list
starts at the frame of the handler itself, so the walk crosses the yield or
return wrapper and needs two back frames; with fewer frames the body is
skipped and found stays False. When the walked-to frame runs a different
code object the assert on line 363 raises AssertionError. On the matched
path the handler then performs the FuncInfo construction of lines 365-369
with the three positional arguments of funcInfoCallArgs; the two-field
initializer rejects that call (claim C2), so the construction raises
TypeError before the pending-sample lookup — the some branch models what
the surrounding code does with a successfully built identity. The
classification of the returned value (get_value_type, in a module not
under src/) enters as the typeinfo input. The returned value is DISABLE
exactly when sampling is on and the pending sample was found, None
otherwise, on every non-raising path. -/
def process_yield_or_return (o : Observations) (c : CodeObj) (stack : List Frame)
    (skip : Bool) (typeinfo : TypeInfo) (is_yield sampling : Bool) :
    Observations × HandlerOutcome :=
  if skip then (o, .disable)
  else
    match stack with
    | _cur :: _b :: fr :: _ =>
        if fr.f_code = c then
          match funcInfoConstruct (funcInfoCallArgs c) with
          | none => (o, .exc "TypeError")
          | some t =>
              let r := if is_yield then o.record_yield t fr.f_id typeinfo
                       else o.record_return t fr.f_id typeinfo
              (r.1, if sampling && r.2 then .disable else .keep)
        else (o, .exc "AssertionError")
    | _ => (o, .keep)

/-! ### Adaptive sampling controller, righttyper.py lines 519-567 -/

/-- in_instrumentation_code (righttyper.py lines 519-533): walk at most ten
frames looking for one that runs an instrumentation code object. -/
def in_instrumentation_code (stack : List Nat) (instr_codes : List Nat) : Bool :=
  (stack.take 10).any (fun c => instr_codes.contains c)

/-- Counters of the sampling controller (righttyper.py lines 84-87); the
module-level floats hold whole counts, embedded as naturals. -/
structure SamplerState where
  sample_count_instrumentation : Nat
  sample_count_total : Nat
deriving DecidableEq, Repr

/-- Effects of one firing of restart_sampling. -/
structure SamplerResult where
  state : SamplerState
  instrumentation_overhead : ℚ
  restarted : Bool
  rearmed : Bool
deriving DecidableEq, Repr

/-- restart_sampling (righttyper.py lines 536-567): increment the total
sample counter, classify the interrupted stack, recompute the overhead
estimate, call sys.monitoring.restart_events() exactly when the estimate is
at most target_overhead divided by 100, and re-arm the timer
unconditionally. The assert on line 551 (frame is not None) is taken as
satisfied by the stack input. -/
def restart_sampling (st : SamplerState) (stack : List Nat) (instr_codes : List Nat)
    (target_overhead : ℚ) : SamplerResult :=
  let total := st.sample_count_total + 1
  let inst := st.sample_count_instrumentation +
    (if in_instrumentation_code stack instr_codes then 1 else 0)
  let overhead : ℚ := (inst : ℚ) / (total : ℚ)
  { state := ⟨inst, total⟩,
    instrumentation_overhead := overhead,
    restarted := decide (overhead ≤ target_overhead / 100),
    rearmed := true }

/-! ### Concrete stores used by closed theorems and witnesses -/

/-- Empty observation store. -/
def emptyObs : Observations := {}

/-- Live int descriptor (type_obj present). -/
def intLive : TypeInfo := .mk "builtins" "int" .nil none false (some 1)

/-- Int descriptor after the serialization strip. -/
def intStripped : TypeInfo := .mk "builtins" "int" .nil none false none

/-- Second live int descriptor: same structural content as intLive, but a
different runtime type object identity, as when the descriptor is produced
in a different worker context. -/
def intLiveTwo : TypeInfo := .mk "builtins" "int" .nil none false (some 2)

def fDemo : FuncInfo := ⟨"demo.py", "f"⟩

/-- Store after observing one completed call of a function f(a, b=0): both
argument types and the return type sampled as int, with the default type of
b recorded. -/
def demoObs : Observations :=
  { functions_visited := [(fDemo, [⟨"a", none⟩, ⟨"b", some intLive⟩])],
    pending_samples := [],
    samples := [(fDemo, [[intLive, intLive, intLive]])] }

def fBad : FuncInfo := ⟨"demo.py", "bad"⟩

def fArg : FuncInfo := ⟨"demo.py", "with_arg"⟩

/-- Store where the sample rows of fBad disagree on arity while fArg, a
function with one argument, has a consistent completed sample. -/
def demoMixedObs : Observations :=
  { functions_visited := [(fBad, []), (fArg, [⟨"a", none⟩])],
    pending_samples := [],
    samples := [(fBad, [[intLive], [intLive, intLive]]), (fArg, [[intLive, intLive]])] }

def fGen : FuncInfo := ⟨"demo.py", "gen"⟩

/-- Pending sample of an abandoned generator: one yield recorded, no
return. -/
def sGen : Sample := { args := [intLive], yields := [intLive] }

/-- Store holding only the abandoned generator sample. -/
def demoGenObs : Observations :=
  { functions_visited := [(fGen, [⟨"x", none⟩])],
    pending_samples := [((fGen, 7), sGen)],
    samples := [] }

/-- Pending sample of an in-flight call of fDemo. -/
def sPend : Sample := { args := [intLive] }

/-- Store holding one in-flight call of fDemo under frame id 5. -/
def demoPendObs : Observations :=
  { functions_visited := [(fDemo, [⟨"a", none⟩])],
    pending_samples := [((fDemo, 5), sPend)],
    samples := [] }

def cOne : CodeObj := ⟨"demo.py", 1, "f"⟩

def cTwo : CodeObj := ⟨"other.py", 9, "g"⟩

/-! ### Helper lemmas on the dict and set embeddings -/

theorem alookup_mem {α β : Type} [DecidableEq α] :
    ∀ {l : List (α × β)} {k : α} {v : β}, alookup l k = some v → (k, v) ∈ l
  | [], _, _, h => by simp [alookup] at h
  | (k', v') :: rest, k, v, h => by
      by_cases hk : k' = k
      · subst hk
        simp [alookup] at h
        simp [h]
      · simp [alookup, hk] at h
        exact List.mem_cons_of_mem _ (alookup_mem h)

theorem alookup_eq_none {α β : Type} [DecidableEq α] :
    ∀ {l : List (α × β)} {k : α}, k ∉ l.map Prod.fst → alookup l k = none
  | [], _, _ => rfl
  | (k', v') :: rest, k, h => by
      simp only [List.map_cons, List.mem_cons] at h
      push_neg at h
      have hne : ¬(k' = k) := fun hh => h.1 hh.symm
      simp [alookup, hne, alookup_eq_none h.2]

theorem alookup_aupsert_self {α β : Type} [DecidableEq α] :
    ∀ (l : List (α × β)) (k : α) (v : β), alookup (aupsert l k v) k = some v
  | [], k, v => by simp [aupsert, alookup]
  | (k', v') :: rest, k, v => by
      by_cases hk : k' = k
      · simp [aupsert, hk, alookup]
      · simp [aupsert, hk, alookup, alookup_aupsert_self rest k v]

theorem alookup_aupsert_ne {α β : Type} [DecidableEq α] :
    ∀ (l : List (α × β)) (k k' : α) (v : β), k' ≠ k →
      alookup (aupsert l k v) k' = alookup l k'
  | [], k, k', v, h => by
      have hne : ¬(k = k') := fun hh => h hh.symm
      simp [aupsert, alookup, hne]
  | (k0, v0) :: rest, k, k', v, h => by
      by_cases hk : k0 = k
      · subst hk
        have hne : ¬(k0 = k') := fun hh => h hh.symm
        simp [aupsert, alookup, hne]
      · simp [aupsert, hk, alookup, alookup_aupsert_ne rest k k' v h]

theorem alookup_append {α β : Type} [DecidableEq α] :
    ∀ (l l' : List (α × β)) (k : α),
      alookup (l ++ l') k = ((alookup l k).rec (alookup l' k) (fun v => some v))
  | [], l', k => by simp [alookup]
  | (k', v') :: rest, l', k => by
      by_cases hk : k' = k
      · simp [alookup, hk]
      · simp [alookup, hk, alookup_append rest l' k]

theorem alookup_aerase_self {α β : Type} [DecidableEq α] :
    ∀ {l : List (α × β)} {k : α}, (l.map Prod.fst).Nodup →
      alookup (aerase l k) k = none
  | [], _, _ => rfl
  | (k', v') :: rest, k, h => by
      simp only [List.map_cons, List.nodup_cons] at h
      by_cases hk : k' = k
      · subst hk
        simpa [aerase] using alookup_eq_none h.1
      · simp [aerase, hk, alookup, alookup_aerase_self h.2]

theorem length_aerase {α β : Type} [DecidableEq α] :
    ∀ {l : List (α × β)} {k : α} {v : β}, alookup l k = some v →
      (aerase l k).length + 1 = l.length
  | [], _, _, h => by simp [alookup] at h
  | (k', v') :: rest, k, v, h => by
      by_cases hk : k' = k
      · simp [aerase, hk]
      · simp only [alookup, hk, if_neg] at h
        simp [aerase, hk, length_aerase h]

theorem mem_setInsert {α : Type} [DecidableEq α] (x y : α) (xs : List α) :
    x ∈ setInsert y xs ↔ x ∈ xs ∨ x = y := by
  by_cases h : y ∈ xs
  · constructor
    · intro hx
      simp only [setInsert, if_pos h] at hx
      exact Or.inl hx
    · rintro (hx | rfl)
      · simp [setInsert, h, hx]
      · simp [setInsert, h]
  · simp [setInsert, h]

/-! ### Helper lemmas about the serialization strip -/

mutual
theorem stripT_no : ∀ t : TypeInfo, noTypeObjT (stripT t) = true
  | .mk m n args f b o => by
      simp [stripT, noTypeObjT, stripArgs_no args]

theorem stripArgs_no : ∀ a : TypeArgs, noTypeObjArgs (stripArgs a) = true
  | .nil => by simp [stripArgs, noTypeObjArgs]
  | .consT t r => by simp [stripArgs, noTypeObjArgs, stripT_no t, stripArgs_no r]
  | .consS s r => by simp [stripArgs, noTypeObjArgs, stripArgs_no r]
end

theorem stripT_fields (u : TypeInfo) :
    stripT u = .mk u.module u.name (stripArgs u.args) u.func u.is_bound none := by
  cases u
  rfl

/-! ### Helper lemmas about the completed-samples map and the pending fold -/

theorem mem_rowsOfS_samplesInsert (S : List (FuncInfo × List (List TypeInfo)))
    (f g : FuncInfo) (row r : List TypeInfo) :
    r ∈ rowsOfS (samplesInsert S f row) g ↔ r ∈ rowsOfS S g ∨ (g = f ∧ r = row) := by
  unfold samplesInsert
  cases h : alookup S f with
  | some rows =>
      by_cases hg : g = f
      · subst hg
        rw [rowsOfS, alookup_aupsert_self]
        simp [rowsOfS, h, mem_setInsert]
      · rw [rowsOfS, alookup_aupsert_ne S f g _ hg]
        simp [rowsOfS, hg]
  | none =>
      by_cases hg : g = f
      · subst hg
        rw [rowsOfS, alookup_append]
        simp [rowsOfS, h, alookup]
      · rw [rowsOfS, alookup_append]
        cases hx : alookup S g with
        | some v => simp [rowsOfS, hx, hg]
        | none =>
            have hfg : ¬(f = g) := fun hh => hg hh.symm
            simp [rowsOfS, hx, alookup, hg, hfg]

theorem mem_rowsOfS_foldPendingAux :
    ∀ (l : List ((FuncInfo × Nat) × Sample)) (S : List (FuncInfo × List (List TypeInfo)))
      (g : FuncInfo) (r : List TypeInfo),
      r ∈ rowsOfS (foldPendingAux l S) g ↔
        r ∈ rowsOfS S g ∨
          ∃ k s, (k, s) ∈ l ∧ k.1 = g ∧ s.yields ≠ [] ∧ r = s.process
  | [], S, g, r => by simp [foldPendingAux]
  | (k, s) :: rest, S, g, r => by
      rw [foldPendingAux]
      by_cases hy : s.yields = []
      · rw [if_pos hy, mem_rowsOfS_foldPendingAux rest S g r]
        constructor
        · rintro (h | ⟨k', s', hm, hk, hys, hr⟩)
          · exact Or.inl h
          · exact Or.inr ⟨k', s', List.mem_cons_of_mem _ hm, hk, hys, hr⟩
        · rintro (h | ⟨k', s', hm, hk, hys, hr⟩)
          · exact Or.inl h
          · rcases List.mem_cons.mp hm with heq | hm'
            · cases heq
              exact absurd hy hys
            · exact Or.inr ⟨k', s', hm', hk, hys, hr⟩
      · rw [if_neg hy, mem_rowsOfS_foldPendingAux rest _ g r]
        rw [mem_rowsOfS_samplesInsert]
        constructor
        · rintro ((h | ⟨hg, hr⟩) | ⟨k', s', hm, hk, hys, hr⟩)
          · exact Or.inl h
          · exact Or.inr ⟨k, s, List.mem_cons_self _ _, hg.symm, hy, hr⟩
          · exact Or.inr ⟨k', s', List.mem_cons_of_mem _ hm, hk, hys, hr⟩
        · rintro (h | ⟨k', s', hm, hk, hys, hr⟩)
          · exact Or.inl (Or.inl h)
          · rcases List.mem_cons.mp hm with heq | hm'
            · rw [Prod.mk.injEq] at heq
              exact Or.inl (Or.inr ⟨by rw [← heq.1, hk], by rw [hr, heq.2]⟩)
            · exact Or.inr ⟨k', s', hm', hk, hys, hr⟩

/-! ### Helper lemmas about mk_annotation -/

theorem mk_annot_some {o : Observations} {t : FuncInfo} {ann : FuncAnnot}
    (h : o.mk_annot t = some ann) :
    ∃ argInfos sig, alookup o.functions_visited t = some argInfos ∧
      generalize (o.rowsOf t) = some sig ∧
      ann.args = argInfos.enum.map (fun p =>
        (p.2.arg_name, stripT (union_typeset (sig.getD p.1 noneTypeInfo ::
          (match p.2.type_set with | some d => [d] | none => []))))) ∧
      ann.retval = stripT (sig.getLast?.getD noneTypeInfo) := by
  cases hv : alookup o.functions_visited t with
  | none => simp [Observations.mk_annot, hv] at h
  | some argInfos =>
      cases hg : generalize (o.rowsOf t) with
      | none => simp [Observations.mk_annot, hv, hg] at h
      | some sig =>
          simp only [Observations.mk_annot, hv, hg] at h
          have h2 := Option.some.inj h
          exact ⟨argInfos, sig, rfl, rfl, by rw [← h2], by rw [← h2]⟩

/-! ### Claim theorems -/

/-- Claim C1 (code bug): mk_annotation is meant to give every argument with
a recorded default the union of the generalized sampled type and the
default type, but it reads the attribute named default from ArgInfo values
that declare only arg_name and type_set, so the read raises AttributeError
(first two conjuncts: the attribute lookup fails on the concrete ArgInfo of
argument b). With the intended read of the stored field, the pipeline does
produce the union containing the stripped default type (third conjunct, on
a store where f(a, b=0) was sampled once), and stripping the live default
descriptor yields exactly the annotated type of b (fourth conjunct). -/
theorem c1_default_field_bug :
    argInfoGetattr ⟨"b", some intLive⟩ mkAnnotDefaultAttr = none ∧
    argInfoGetattr ⟨"b", some intLive⟩ "type_set" = some (.inr (some intLive)) ∧
    demoObs.collect_annotations =
      [(fDemo, ⟨[("a", intStripped), ("b", intStripped)], intStripped⟩)] ∧
    stripT intLive = intStripped := by
  refine ⟨by decide, by decide, by decide, by decide⟩

/-- Claim C2 (code bug): FuncInfo is the immutable, hashable pair of
source file and qualified name, but the handlers construct it with three
positional arguments (co_filename, co_firstlineno, co_qualname), which the
two-field initializer rejects with TypeError (first two conjuncts, at a
concrete code object); construction from the two declared components
succeeds and yields the pair (last two conjuncts). -/
theorem c2_funcinfo_arity_bug :
    funcInfoConstruct (funcInfoCallArgs cOne) = none ∧
    (funcInfoCallArgs cOne).length = 3 ∧
    funcInfoConstruct [.s "demo.py", .s "f"] = some ⟨"demo.py", "f"⟩ ∧
    funcInfoOfCode cOne = fDemo := by
  refine ⟨rfl, rfl, rfl, rfl⟩

/-- Claim C3, counterexample: two TypeInfo values that agree on module,
name, args, func and is_bound but hold different live runtime type
identities compare unequal, because the frozen dataclass derives equality
from all fields including type_obj. -/
theorem c3_type_obj_in_eq :
    (intLive.module = intLiveTwo.module ∧ intLive.name = intLiveTwo.name ∧
     intLive.args = intLiveTwo.args ∧ intLive.func = intLiveTwo.func ∧
     intLive.is_bound = intLiveTwo.is_bound) ∧ intLive ≠ intLiveTwo := by
  refine ⟨⟨rfl, rfl, rfl, rfl, rfl⟩, by decide⟩

/-- Claim C3, amended: TypeInfo equality is structural over all six fields,
type_obj included: two values compare equal exactly when module, name,
args, func, is_bound and type_obj all agree, independently of construction
order, and equal values hash equal. -/
theorem c3_structural_eq (a b : TypeInfo) :
    (a = b ↔ a.module = b.module ∧ a.name = b.name ∧ a.args = b.args ∧
      a.func = b.func ∧ a.is_bound = b.is_bound ∧ a.type_obj = b.type_obj) ∧
    (a = b → tyHash a = tyHash b) := by
  constructor
  · constructor
    · rintro rfl
      exact ⟨rfl, rfl, rfl, rfl, rfl, rfl⟩
    · rintro ⟨h1, h2, h3, h4, h5, h6⟩
      cases a with
      | mk m n ar f bb o =>
        cases b with
        | mk m2 n2 ar2 f2 b2 o2 =>
          simp only [TypeInfo.module, TypeInfo.name, TypeInfo.args, TypeInfo.func,
            TypeInfo.is_bound, TypeInfo.type_obj] at h1 h2 h3 h4 h5 h6
          rw [h1, h2, h3, h4, h5, h6]
  · rintro rfl
    rfl

/-- Witness for the amended claim C3 at a concrete descriptor. -/
theorem c3_structural_eq_witness : tyHash intLive = tyHash intLive :=
  (c3_structural_eq intLive intLive).2 rfl

/-- Claim C4: at annotation-collection time every still-pending Sample with
at least one recorded yield is folded into the completed sample set of its
function, its finalized tuple ending in a generator summary whose first
generic arg is the union of its yield types; and every row of the folded
completed sets either was already completed or comes from such a yielding
pending sample, so pending samples with no recorded output are dropped. -/
theorem c4_generator_folding (o : Observations) :
    (∀ t fid s, ((t, fid), s) ∈ o.pending_samples → s.yields ≠ [] →
       s.process ∈ o.foldPending.rowsOf t ∧
       s.process.getLast? = some (.mk "typing" "Generator"
         (.consT (union_typeset s.yields)
           (.consT noneTypeInfo (.consT (s.returns.getD noneTypeInfo) .nil)))
         none false none)) ∧
    (∀ t r, r ∈ o.foldPending.rowsOf t →
       r ∈ o.rowsOf t ∨
       ∃ fid s, ((t, fid), s) ∈ o.pending_samples ∧ s.yields ≠ [] ∧ r = s.process) := by
  constructor
  · intro t fid s hm hy
    constructor
    · show s.process ∈ rowsOfS (foldPendingAux o.pending_samples o.samples) t
      exact (mem_rowsOfS_foldPendingAux o.pending_samples o.samples t s.process).mpr
        (Or.inr ⟨(t, fid), s, hm, rfl, hy, rfl⟩)
    · simp only [Sample.process, hy, if_neg, ite_false]
      rw [List.getLast?_append_cons]
      rfl
  · intro t r hr
    have hr' : r ∈ rowsOfS (foldPendingAux o.pending_samples o.samples) t := hr
    rcases (mem_rowsOfS_foldPendingAux o.pending_samples o.samples t r).mp hr' with
      h | ⟨k, s, hm, hk, hy, hrr⟩
    · exact Or.inl h
    · refine Or.inr ⟨k.2, s, ?_, hy, hrr⟩
      rw [← hk]
      exact hm

/-- Witness for claim C4: the abandoned generator sample of demoGenObs is
folded into the completed set of its function. -/
theorem c4_generator_folding_witness :
    sGen.process ∈ demoGenObs.foldPending.rowsOf fGen :=
  ((c4_generator_folding demoGenObs).1 fGen 7 sGen (by decide) (by decide)).1

/-- Claim C5 (code bug): on a correlation miss the store operations do
ignore the signal — record_return and record_yield return False without
mutating the store (first two conjuncts) — but the handler never reaches
them: on the deep-stack matched-code path it raises TypeError at the
three-positional-argument FuncInfo construction (the slip of claim C2)
before the pending-sample lookup, instead of returning None as the claim
states (third conjunct); the construction it attempts is the rejected
three-argument call (fourth conjunct). -/
theorem c5_miss_raises (o : Observations) (t : FuncInfo) (fid : Nat) (ti : TypeInfo)
    (hmiss : alookup o.pending_samples (t, fid) = none) :
    o.record_return t fid ti = (o, false) ∧
    o.record_yield t fid ti = (o, false) ∧
    (∀ (c : CodeObj) (cur b fr : Frame) (rest : List Frame) (is_yield sampling : Bool),
       fr.f_code = c →
       process_yield_or_return o c (cur :: b :: fr :: rest) false ti is_yield sampling =
         (o, .exc "TypeError")) ∧
    (∀ c : CodeObj, funcInfoConstruct (funcInfoCallArgs c) = none) := by
  refine ⟨?_, ?_, ?_, fun c => rfl⟩
  · simp [Observations.record_return, hmiss]
  · simp [Observations.record_yield, hmiss]
  · intro c cur b fr rest is_yield sampling hc
    simp [process_yield_or_return, hc, funcInfoConstruct, funcInfoCallArgs]

/-- Witness for claim C5 at a concrete store with no pending sample. -/
theorem c5_miss_raises_witness :
    process_yield_or_return emptyObs cOne [⟨cOne, 1⟩, ⟨cOne, 2⟩, ⟨cOne, 3⟩]
      false intLive true true = (emptyObs, .exc "TypeError") :=
  (c5_miss_raises emptyObs fDemo 3 intLive (by decide)).2.2.1
    cOne ⟨cOne, 1⟩ ⟨cOne, 2⟩ ⟨cOne, 3⟩ [] true true rfl

/-- Claim C6: a correctly correlated return finalizes exactly one pending
Sample: it returns True, leaves the pending map with that entry erased (so
one fewer entry, and the key no longer present), adds the finalized tuple
to the completed set of the function, and a second return on the same key
then changes nothing and returns False; a correlated yield returns True,
keeps the sample pending with the yield type added, and leaves the
completed sets untouched. -/
theorem c6_finalize_once (o : Observations) (t : FuncInfo) (fid : Nat) (s : Sample)
    (rt yt : TypeInfo)
    (hs : alookup o.pending_samples (t, fid) = some s)
    (hnd : (o.pending_samples.map Prod.fst).Nodup) :
    (o.record_return t fid rt).2 = true ∧
    (o.record_return t fid rt).1.pending_samples = aerase o.pending_samples (t, fid) ∧
    alookup (o.record_return t fid rt).1.pending_samples (t, fid) = none ∧
    (o.record_return t fid rt).1.pending_samples.length + 1 =
      o.pending_samples.length ∧
    Sample.process { s with returns := some rt } ∈ (o.record_return t fid rt).1.rowsOf t ∧
    (o.record_return t fid rt).1.record_return t fid rt =
      ((o.record_return t fid rt).1, false) ∧
    (o.record_yield t fid yt).2 = true ∧
    alookup (o.record_yield t fid yt).1.pending_samples (t, fid) =
      some { s with yields := setInsert yt s.yields } ∧
    (o.record_yield t fid yt).1.samples = o.samples := by
  have hret : o.record_return t fid rt =
      ({ o with
          samples := samplesInsert o.samples t
            (Sample.process { s with returns := some rt }),
          pending_samples := aerase o.pending_samples (t, fid) }, true) := by
    simp [Observations.record_return, hs]
  have hyld : o.record_yield t fid yt =
      ({ o with
          pending_samples := aupsert o.pending_samples (t, fid)
            ({ s with yields := setInsert yt s.yields } : Sample) }, true) := by
    simp [Observations.record_yield, hs]
  have herase : alookup (aerase o.pending_samples (t, fid)) (t, fid) = none :=
    alookup_aerase_self hnd
  refine ⟨by rw [hret], by rw [hret], ?_, ?_, ?_, ?_, by rw [hyld], ?_, by rw [hyld]⟩
  · rw [hret]
    exact herase
  · rw [hret]
    exact length_aerase hs
  · rw [hret]
    show Sample.process { s with returns := some rt } ∈
      rowsOfS (samplesInsert o.samples t (Sample.process { s with returns := some rt })) t
    exact (mem_rowsOfS_samplesInsert _ _ _ _ _).mpr (Or.inr ⟨rfl, rfl⟩)
  · rw [hret]
    simp [Observations.record_return, herase]
  · rw [hyld]
    exact alookup_aupsert_self _ _ _

/-- Witness for claim C6 at a concrete store with one pending sample. -/
theorem c6_finalize_once_witness :
    (demoPendObs.record_return fDemo 5 intLive).2 = true :=
  (c6_finalize_once demoPendObs fDemo 5 sPend intLive intLive (by decide)
    (by decide)).1

/-- Claim C7: each firing of the sampling timer increments the total sample
counter before computing the overhead estimate, so the denominator is the
incremented total and is nonzero already on the very first firing; capture
is re-enabled exactly when the estimate is at most target divided by 100;
and the timer re-arms itself regardless of the decision. -/
theorem c7_sampler_loop (st : SamplerState) (stack instr : List Nat) (target : ℚ) :
    (restart_sampling st stack instr target).state.sample_count_total =
      st.sample_count_total + 1 ∧
    ((st.sample_count_total + 1 : Nat) : ℚ) ≠ 0 ∧
    (restart_sampling st stack instr target).instrumentation_overhead =
      (((restart_sampling st stack instr target).state.sample_count_instrumentation :
        Nat) : ℚ) / ((st.sample_count_total + 1 : Nat) : ℚ) ∧
    ((restart_sampling st stack instr target).restarted = true ↔
      (restart_sampling st stack instr target).instrumentation_overhead ≤
        target / 100) ∧
    (restart_sampling st stack instr target).rearmed = true := by
  refine ⟨rfl, ?_, rfl, ?_, rfl⟩
  · exact_mod_cast Nat.succ_ne_zero st.sample_count_total
  · simp [restart_sampling]

/-- Witness for claim C7 at the very first firing. -/
theorem c7_sampler_loop_witness :
    (restart_sampling ⟨0, 0⟩ [] [] 5).state.sample_count_total = 1 ∧
    (restart_sampling ⟨0, 0⟩ [] [] 5).rearmed = true :=
  ⟨(c7_sampler_loop ⟨0, 0⟩ [] [] 5).1, (c7_sampler_loop ⟨0, 0⟩ [] [] 5).2.2.2.2⟩

/-- Claim C8, counterexample: when the call stack has the expected depth
but the walked-to frame runs a different code object, the handlers raise
an AssertionError instead of being a no-op, both on return/yield and on
enter. -/
theorem c8_assert_raises :
    process_yield_or_return emptyObs cOne [⟨cOne, 1⟩, ⟨cOne, 2⟩, ⟨cTwo, 3⟩]
      false intLive false true = (emptyObs, .exc "AssertionError") ∧
    enter_handler emptyObs cOne [⟨cOne, 1⟩, ⟨cTwo, 2⟩] false true []
      (fun _ => none) [] none = (emptyObs, .exc "AssertionError") := by
  refine ⟨by decide, by decide⟩

/-- Claim C8, amended: a return, yield or enter signal whose call stack is
too shallow for the frame walk of its handler is a no-op that raises no
exception and leaves the whole store — hence the observations of every
other function — unchanged; when the stack has the expected depth but the
walked-to frame runs a different code object, the assert fires and the
signal raises AssertionError, still leaving the store unchanged. -/
theorem c8_frame_walk (o : Observations) (c : CodeObj) (ti : TypeInfo)
    (is_yield sampling : Bool) :
    (∀ stack : List Frame, stack.length ≤ 2 →
       process_yield_or_return o c stack false ti is_yield sampling = (o, .keep)) ∧
    (∀ stack : List Frame, stack.length ≤ 1 →
       ∀ (arg_names : List String) (gdt : String → Option TypeInfo)
         (arg_types : List TypeInfo) (self_type : Option TypeInfo),
         enter_handler o c stack false sampling arg_names gdt arg_types self_type =
           (o, if sampling then .disable else .keep)) ∧
    (∀ (cur b fr : Frame) (rest : List Frame), fr.f_code ≠ c →
       process_yield_or_return o c (cur :: b :: fr :: rest) false ti is_yield sampling =
         (o, .exc "AssertionError")) := by
  refine ⟨?_, ?_, ?_⟩
  · intro stack hlen
    match stack with
    | [] => rfl
    | [_] => rfl
    | [_, _] => rfl
    | _ :: _ :: _ :: _ => simp at hlen
  · intro stack hlen arg_names gdt arg_types self_type
    match stack with
    | [] => rfl
    | [_] => rfl
    | _ :: _ :: _ => simp at hlen
  · intro cur b fr rest hne
    simp [process_yield_or_return, hne]

/-- Witness for the amended claim C8 on an empty call stack. -/
theorem c8_frame_walk_witness :
    process_yield_or_return emptyObs cOne [] false intLive false true =
      (emptyObs, .keep) :=
  (c8_frame_walk emptyObs cOne intLive false true).1 [] (by decide)

/-- Claim C9 (code bug): on a store holding the arity-inconsistent
zero-argument function fBad next to fArg, a function with one argument,
the faithful collect_annotations raises AttributeError and returns nothing
(first conjunct), because mk_annotation evaluates arg.default — an
attribute ArgInfo does not declare, the slip of claim C1 — for every
argument of every annotated function (third conjunct); the
generalization-failure skip itself does work, but only for zero-argument
functions (second conjunct). With the intended read of the stored field,
the claimed behavior holds: fBad is omitted and the annotation of fArg is
still produced (last two conjuncts). -/
theorem c9_attr_error_bug :
    demoMixedObs.collect_annotations_src = .error "AttributeError" ∧
    (demoMixedObs.foldPending.transformSamples).mk_annot_src fBad = .ok none ∧
    (demoMixedObs.foldPending.transformSamples).mk_annot_src fArg =
      .error "AttributeError" ∧
    alookup demoMixedObs.collect_annotations fBad = none ∧
    alookup demoMixedObs.collect_annotations fArg =
      some ⟨[("a", intStripped)], intStripped⟩ := by
  exact ⟨rfl, rfl, rfl, rfl, rfl⟩

/-- Claim C10: every TypeInfo reachable in an annotation returned by
collect_annotations — each argument type, the return type, and everything
nested in their args — carries no runtime type handle, and the strip that
achieves this preserves module, name, func and is_bound and maps the args
recursively. -/
theorem c10_type_obj_stripped (o : Observations) (t : FuncInfo) (ann : FuncAnnot)
    (h : (t, ann) ∈ o.collect_annotations) :
    (∀ p ∈ ann.args, noTypeObjT p.2 = true) ∧ noTypeObjT ann.retval = true ∧
    (∀ u : TypeInfo,
      stripT u = .mk u.module u.name (stripArgs u.args) u.func u.is_bound none) := by
  have h' : ∃ p ∈ (o.foldPending.transformSamples).samples,
      ((o.foldPending.transformSamples).mk_annot p.1).map (fun a => (p.1, a)) =
        some (t, ann) := List.mem_filterMap.mp h
  obtain ⟨p, _, hp⟩ := h'
  rw [Option.map_eq_some'] at hp
  obtain ⟨ann', hann', heq⟩ := hp
  have hann : (o.foldPending.transformSamples).mk_annot p.1 = some ann := by
    rw [hann']
    rw [(Prod.mk.injEq _ _ _ _).mp heq |>.2]
  obtain ⟨argInfos, sig, _, _, hargs, hret⟩ := mk_annot_some hann
  refine ⟨?_, ?_, stripT_fields⟩
  · intro q hq
    rw [hargs] at hq
    obtain ⟨x, _, hx⟩ := List.mem_map.mp hq
    rw [← hx]
    exact stripT_no _
  · rw [hret]
    exact stripT_no _

/-- Witness for claim C10 on the concrete store demoObs. -/
theorem c10_type_obj_stripped_witness :
    noTypeObjT (⟨[("a", intStripped), ("b", intStripped)], intStripped⟩ :
      FuncAnnot).retval = true :=
  (c10_type_obj_stripped demoObs fDemo
    ⟨[("a", intStripped), ("b", intStripped)], intStripped⟩ (by decide)).2.1

end RightTyper
